import Mathlib

/-
  Verification development for the lmdb-cpp wrapper layer
  (src/src/lmdb_cpp.cpp, src/include/lmdb_errors.hpp,
  src/include/thread_safe_map.hpp).

  The development shallowly embeds the wrapper's control flow.  The LMDB
  engine itself is an external collaborator: engine calls whose outcome
  depends on engine-internal state (mdb_txn_begin, mdb_env_set_mapsize,
  mdb_drop, ...) are given their result codes as explicit oracle
  parameters, while the engine's documented transactional semantics
  (a transaction's writes are invisible until commit, discarded on abort)
  is modelled by a pending-operation list carried by the transaction.
-/

namespace LMDBCpp

/-- Byte strings: values and keys are carried as std::vector of unsigned char
(mdb_result_t) in the source; modelled as lists of naturals. -/
abbrev Bytes := List Nat

/-- Key/value store committed in the engine: association list, first match
wins, mirroring one LMDB keyspace without duplicate keys. -/
abbrev Store := List (Bytes × Bytes)

/- Error codes from src/include/lmdb_errors.hpp.  The Error class carries a
code plus a message; operator==(ErrorCode) compares codes and operator bool
is code != SUCCESS, so errors are modelled by their integer code. -/

def SUCCESS : Int := 0

def LMDB_ENV_NOT_OPEN : Int := -40001

def LMDB_ERROR : Int := -40000

def LMDB_EMPTY : Int := -39999

def LMDB_KEYEXIST : Int := -30799

def LMDB_NOTFOUND : Int := -30798

def LMDB_PAGE_NOTFOUND : Int := -30797

def LMDB_CORRUPTED : Int := -30796

def LMDB_PANIC : Int := -30795

def LMDB_VERSION_MISMATCH : Int := -30794

def LMDB_INVALID : Int := -30793

def LMDB_MAP_FULL : Int := -30792

def LMDB_DBS_FULL : Int := -30791

def LMDB_READERS_FULL : Int := -30790

def LMDB_TLS_FULL : Int := -30789

def LMDB_TXN_FULL : Int := -30788

def LMDB_CURSOR_FULL : Int := -30787

def LMDB_PAGE_FULL : Int := -30786

def LMDB_MAP_RESIZED : Int := -30785

def LMDB_INCOMPATIBLE : Int := -30784

def LMDB_BAD_RSLOT : Int := -30783

def LMDB_BAD_TXN : Int := -30782

def LMDB_BAD_VALSIZE : Int := -30781

def LMDB_BAD_DBI : Int := -30780

/-- The codes in the header block commented "Do not change LMDB values as
they map directly to LMDB return codes": these are the engine's own error
codes, preserved verbatim by the wrapper. -/
def engineCodes : List Int :=
  [LMDB_KEYEXIST, LMDB_NOTFOUND, LMDB_PAGE_NOTFOUND, LMDB_CORRUPTED,
   LMDB_PANIC, LMDB_VERSION_MISMATCH, LMDB_INVALID, LMDB_MAP_FULL,
   LMDB_DBS_FULL, LMDB_READERS_FULL, LMDB_TLS_FULL, LMDB_TXN_FULL,
   LMDB_CURSOR_FULL, LMDB_PAGE_FULL, LMDB_MAP_RESIZED, LMDB_INCOMPATIBLE,
   LMDB_BAD_RSLOT, LMDB_BAD_TXN, LMDB_BAD_VALSIZE, LMDB_BAD_DBI]

/-- Outcome of calling a wrapper member function: a value returned normally,
a C++ exception thrown (terminating the calling context abnormally), or
undefined behavior from dereferencing a null handle (the source's *txn on a
null shared_ptr) — the latter two are distinct from returning an Error. -/
inductive CallOutcome (α : Type) where
  | ret (value : α)
  | thrown (msg : String)
  | nullDeref
deriving Repr, DecidableEq

/-- Modelled from the spec: the compression collaborator (snappy), which is
out of scope of the repository. The spec requires a byte-stream compress
function and a decompress that reports failure (rather than corrupting
output) on non-compressed input, while a raw value that happens to parse as
valid compressed data is decompressed (spec sections 6 and 9). Modelled as a
tag byte followed by the payload. -/
def snappyCompress (v : Bytes) : Bytes := 255 :: v

/-- Modelled from the spec: the decompress side of the compression
collaborator; fails (none) exactly on inputs that do not parse as compressed
data, and inverts snappyCompress. -/
def snappyUncompress : Bytes → Option Bytes
  | 255 :: rest => some rest
  | _ => none

/-- Embeds load_value (lmdb_cpp.cpp lines 76-91): copies the input bytes
and, when the compressed flag is set, compresses them before returning. -/
def load_value (value : Bytes) (compressed : Bool) : Bytes :=
  if !compressed then value else snappyCompress value

/-- Embeds load_result (lmdb_cpp.cpp lines 111-125): always attempts
decompression of the bytes returned by the engine; on success returns the
decompressed bytes, on failure returns the raw bytes unchanged. -/
def load_result (value : Bytes) : Bytes :=
  match snappyUncompress value with
  | some uncompressed => uncompressed
  | none => value

/- Engine store primitives (the engine's documented single-keyspace
semantics, no duplicate-sort): mdb_put replaces the value of an existing
key, mdb_get finds it, mdb_del removes it. -/

def storeGet : Store → Bytes → Option Bytes
  | [], _ => none
  | (k', v') :: rest, k => if k' = k then some v' else storeGet rest k

def storePut : Store → Bytes → Bytes → Store
  | [], k, v => [(k, v)]
  | (k', v') :: rest, k, v =>
      if k' = k then (k, v) :: rest else (k', v') :: storePut rest k v

def storeDel : Store → Bytes → Store
  | [], _ => []
  | (k', v') :: rest, k =>
      if k' = k then storeDel rest k else (k', v') :: storeDel rest k

/-- A pending write buffered inside a live engine transaction: invisible to
the committed store until mdb_txn_commit, discarded by mdb_txn_abort. -/
inductive TxnOp where
  | put (key value : Bytes)
  | del (key : Bytes)
deriving Repr, DecidableEq

def applyOp (s : Store) : TxnOp → Store
  | .put k v => storePut s k v
  | .del k => storeDel s k

def applyOps (s : Store) (ops : List TxnOp) : Store :=
  ops.foldl applyOp s

/-- State of one Transaction object (class Transaction, lmdb_cpp.hpp):
txn_live models whether the std::shared_ptr<MDB_txn *> txn handle is
non-null; m_readonly is the immutable read-only flag; pending models the
engine transaction's buffered, uncommitted writes. -/
structure TxnState where
  txn_live : Bool
  m_readonly : Bool
  pending : List TxnOp
deriving Repr, DecidableEq

/-- State of one Environment object (class Environment): the open
read/write transaction counter open_txns, the current engine map size, the
engine page size, and the configured growth factor (in MB). -/
structure EnvState where
  open_txns : Nat
  mapsize : Nat
  psize : Nat
  growth_factor : Nat
deriving Repr, DecidableEq

/-- Embeds Environment::transaction_register (lines 419-424): increments
the open read/write transaction counter. -/
def transaction_register (e : EnvState) : EnvState :=
  { e with open_txns := e.open_txns + 1 }

/-- Embeds Environment::transaction_unregister (lines 426-434): decrements
the counter only when it is positive. -/
def transaction_unregister (e : EnvState) : EnvState :=
  if e.open_txns > 0 then { e with open_txns := e.open_txns - 1 } else e

/-- Embeds Transaction::abort (lines 724-739): returns immediately when the
handle is null; otherwise aborts at the engine (mdb_txn_abort discards the
transaction's pending writes), unregisters if read-write, and clears the
handle. The committed store is untouched. -/
def Transaction.abort (env : EnvState) (t : TxnState) : EnvState × TxnState :=
  if !t.txn_live then (env, t)
  else
    let env' := if !t.m_readonly then transaction_unregister env else env
    (env', { t with txn_live := false, pending := [] })

/-- Embeds Transaction::~Transaction (lines 718-722): the destructor's only
action is to call abort. -/
def Transaction.destruct (env : EnvState) (t : TxnState) : EnvState × TxnState :=
  Transaction.abort env t

/-- Embeds Transaction::commit (lines 741-758): fails with LMDB_BAD_TXN
without touching anything when the handle is null; otherwise commits at the
engine (engineResult is the oracle result of mdb_txn_commit; the pending
writes reach the committed store exactly when it succeeds), unregisters if
read-write, clears the handle regardless of the engine outcome, and returns
the engine result. -/
def Transaction.commit (env : EnvState) (t : TxnState) (s : Store)
    (engineResult : Int) : EnvState × TxnState × Store × Int :=
  if !t.txn_live then (env, t, s, LMDB_BAD_TXN)
  else
    let s' := if engineResult = SUCCESS then applyOps s t.pending else s
    let env' := if !t.m_readonly then transaction_unregister env else env
    (env', { t with txn_live := false, pending := [] }, s', engineResult)

/-- Embeds Transaction::get (lines 796-812). The source performs no
handle-liveness check: it immediately evaluates *txn inside mdb_get, which
dereferences a null shared_ptr when the handle is gone — undefined
behavior, modelled as nullDeref. On a live handle, the key is loaded
uncompressed, looked up in the transaction's view of the store, and a found
value is passed through load_result. -/
def Transaction.get (s : Store) (t : TxnState) (key : Bytes) :
    CallOutcome (Int × Bytes) :=
  if t.txn_live then
    let i_key := load_value key false
    match storeGet (applyOps s t.pending) i_key with
    | some raw => .ret (SUCCESS, load_result raw)
    | none => .ret (LMDB_NOTFOUND, [])
  else .nullDeref

/-- Embeds Transaction::put (lines 826-835). No handle-liveness check in
the source: *txn is dereferenced unconditionally (nullDeref when the handle
is gone). On a live handle the key is loaded uncompressed, the value is
loaded through load_value with the bound Database's compression flag, and
mdb_put buffers the write in the transaction. -/
def Transaction.put (t : TxnState) (compressed : Bool) (key value : Bytes) :
    CallOutcome (TxnState × Int) :=
  if t.txn_live then
    let i_key := load_value key false
    let i_value := load_value value compressed
    .ret ({ t with pending := t.pending ++ [TxnOp.put i_key i_value] }, SUCCESS)
  else .nullDeref

/-- Embeds Transaction::del (single-key overload, lines 765-772). No
handle-liveness check in the source (nullDeref when the handle is gone);
on a live handle buffers the deletion. -/
def Transaction.del (t : TxnState) (key : Bytes) :
    CallOutcome (TxnState × Int) :=
  if t.txn_live then
    let i_key := load_value key false
    .ret ({ t with pending := t.pending ++ [TxnOp.del i_key] }, SUCCESS)
  else .nullDeref

/-- Embeds Transaction::exists (lines 785-794). No handle-liveness check in
the source (nullDeref when the handle is gone); on a live handle returns
whether mdb_get succeeds. -/
def Transaction.exists_ (s : Store) (t : TxnState) (key : Bytes) :
    CallOutcome Bool :=
  if t.txn_live then
    let i_key := load_value key false
    .ret (storeGet (applyOps s t.pending) i_key).isSome
  else .nullDeref

/-- Embeds Transaction::id (lines 814-824): guarded — returns LMDB_BAD_TXN
with 0 when the handle is null, otherwise the engine transaction id. -/
def Transaction.id (t : TxnState) (engineId : Nat) : Int × Nat :=
  if !t.txn_live then (LMDB_BAD_TXN, 0) else (SUCCESS, engineId)

/-- Embeds Transaction::renew (lines 842-852): guarded — returns an Error
with code LMDB_BAD_TXN ("Transaction does not exist or is not readonly")
when the handle is null or the transaction is not read-only; otherwise
returns the oracle result of mdb_txn_renew. -/
def Transaction.renew (t : TxnState) (engineResult : Int) : Int :=
  if !t.txn_live || !t.m_readonly then LMDB_BAD_TXN else engineResult

/-- Embeds Transaction::reset (lines 854-862): when the handle is null or
the transaction is not read-only it throws std::runtime_error — abnormal
termination, not an error return; otherwise mdb_txn_reset releases the
reader slot and the object stays alive. -/
def Transaction.reset (t : TxnState) : CallOutcome TxnState :=
  if !t.txn_live || !t.m_readonly then
    .thrown "Transaction does not exist or is not readonly"
  else .ret t

/-- Multiplier LMDB_SPACE_MULTIPLIER (lmdb_cpp.cpp line 37): growth factor
is configured in MB and converted to bytes. -/
def LMDB_SPACE_MULTIPLIER : Nat := 1024 * 1024

/-- Embeds Environment::expand(size_t pages) (lines 236-265): under the
growth mutex, fails with an LMDB_ERROR "Cannot expand LMDB environment map
size while transactions are open" condition when the open read/write
transaction count is non-zero, leaving the map size unchanged; otherwise
computes new_size = ms_psize * pages + me_mapsize (mdb_env_info and
mdb_env_stat are modelled as pure reads of the environment state) and
resizes the engine map via mdb_env_set_mapsize. -/
def Environment.expandPages (e : EnvState) (pages : Nat) : EnvState × Int :=
  if e.open_txns ≠ 0 then (e, LMDB_ERROR)
  else
    let new_size := e.psize * pages + e.mapsize
    ({ e with mapsize := new_size }, SUCCESS)

/-- Embeds Environment::memory_to_pages (lines 382-392): ceil of
memory / page size, modelled by natural ceiling division. -/
def Environment.memory_to_pages (e : EnvState) (memory : Nat) : Nat :=
  (memory + e.psize - 1) / e.psize

/-- Embeds the no-argument Environment::expand (lines 224-234): converts the
configured growth factor to engine pages and delegates to expand(pages). -/
def Environment.expandAuto (e : EnvState) : EnvState × Int :=
  Environment.expandPages e
    (Environment.memory_to_pages e (e.growth_factor * LMDB_SPACE_MULTIPLIER))

/-- Embeds the mdb_txn_begin retry loop of Transaction::txn_setup (lines
870-902): up to 3 attempts; a success breaks out; an MDB_MAP_RESIZED result
on attempt i < 2 runs detect_map_size (whose oracle result d0/d1, when a
failure, throws "Failed to re-initialize map") and retries; any other
failure, or MDB_MAP_RESIZED on the last attempt, throws. r0 r1 r2 are the
oracle results of the three possible mdb_txn_begin calls. -/
def txn_begin (r0 r1 r2 d0 d1 : Int) : CallOutcome Unit :=
  if r0 = SUCCESS then .ret ()
  else if r0 = LMDB_MAP_RESIZED then
    if d0 ≠ SUCCESS then .thrown "Failed to re-initialize map"
    else if r1 = SUCCESS then .ret ()
    else if r1 = LMDB_MAP_RESIZED then
      if d1 ≠ SUCCESS then .thrown "Failed to re-initialize map"
      else if r2 = SUCCESS then .ret ()
      else .thrown "Unable to start LMDB transaction"
    else .thrown "Unable to start LMDB transaction"
  else .thrown "Unable to start LMDB transaction"

/-- Embeds Transaction construction (lines 703-716 and txn_setup lines
870-902): on engine success the handle becomes live with no pending writes
and, when read-write, the Environment's transaction counter is registered;
a txn_setup failure propagates as a thrown construction failure and creates
no object. -/
def Transaction.construct (env : EnvState) (ro : Bool) (r0 r1 r2 d0 d1 : Int) :
    CallOutcome (EnvState × TxnState) :=
  match txn_begin r0 r1 r2 d0 d1 with
  | .ret _ =>
      let t : TxnState := { txn_live := true, m_readonly := ro, pending := [] }
      let env' := if !ro then transaction_register env else env
      .ret (env', t)
  | .thrown m => .thrown m
  | .nullDeref => .nullDeref

/-- True exactly when the LMDB_CHECK_TXN_EXPAND macro (lines 38-49) fires:
the error is a map-full or transaction-full condition. -/
def retryable (code : Int) : Bool :=
  code = LMDB_MAP_FULL || code = LMDB_TXN_FULL

/-- Oracle outcomes the engine produces during one iteration of a
Database-level put/del retry loop: the result of the transaction-level
operation, the result of the commit when it is reached, and the result of
Environment::expand when the macro invokes it (at most one expand runs per
iteration). -/
structure WriteIter where
  op_result : Int
  commit_result : Int
  expand_result : Int
deriving Repr, DecidableEq

/-- Embeds the goto-based retry loop shared by Database::put (lines
669-688) and Database::del (lines 526-545): each iteration opens a fresh
transaction and performs the operation; on a map-full/txn-full result the
macro aborts the transaction, calls expand, and jumps back to try_again only
when expand succeeded — when expand fails, control falls through to
"if (error) return error", surfacing the original operation error; a
non-retryable operation error returns it; otherwise commit runs and its
result is subject to the same macro, a non-retryable commit result being
returned as is. The loop is driven by the list of engine iteration
outcomes; none means the loop was still running when the supplied engine
trace was exhausted. -/
def dbWriteLoop : List WriteIter → Option Int
  | [] => none
  | it :: rest =>
      if retryable it.op_result then
        if it.expand_result = SUCCESS then dbWriteLoop rest
        else some it.op_result
      else if it.op_result ≠ SUCCESS then some it.op_result
      else
        if retryable it.commit_result then
          if it.expand_result = SUCCESS then dbWriteLoop rest
          else some it.commit_result
        else some it.commit_result

/-- Oracle outcomes for one iteration of Database::drop: the result of
mdb_drop, the result of Environment::expand (computed but discarded by the
source), and the result of the commit when it is reached. -/
structure DropIter where
  drop_result : Int
  expand_result : Int
  commit_result : Int
deriving Repr, DecidableEq

/-- Embeds Database::drop (lines 568-587): each iteration opens a fresh
transaction and calls mdb_drop; on MDB_MAP_FULL it aborts, calls
environment->expand() with the result ignored, and unconditionally jumps
back to try_again; any other mdb_drop result falls through to
"return txn->commit()". none means the loop was still running when the
supplied engine trace was exhausted. -/
def dbDropLoop : List DropIter → Option Int
  | [] => none
  | it :: rest =>
      if it.drop_result = LMDB_MAP_FULL then dbDropLoop rest
      else some it.commit_result

/-- The success path of Database::put (lines 669-688) with no map-full
condition: a fresh read-write transaction, a successful transaction-level
put (which loads the key uncompressed and the value through the Database's
compression flag), then a successful commit applying the buffered write. -/
def Database.put_model (env : EnvState) (s : Store) (compression : Bool)
    (key value : Bytes) : EnvState × Store × Int :=
  let t0 : TxnState := { txn_live := true, m_readonly := false, pending := [] }
  match Transaction.put t0 compression key value with
  | .ret (t1, _) =>
      let (env', _, s', r) := Transaction.commit env t1 s SUCCESS
      (env', s', r)
  | _ => (env, s, LMDB_ERROR)

/-- Embeds Database::get (lines 594-597): opens an ephemeral read-only
transaction and delegates to Transaction::get. -/
def Database.get_model (s : Store) (key : Bytes) : CallOutcome (Int × Bytes) :=
  let t0 : TxnState := { txn_live := true, m_readonly := true, pending := [] }
  Transaction.get s t0 key

/- Shared registry (include/thread_safe_map.hpp ThreadSafeMap, used by
Environment::instance for the path-keyed environments map, lines 294-364,
and by Environment::database for the name-keyed databases map, lines
188-207). Handles are identified by the Nat id the factory hands out;
factoryCalls counts factory (private constructor) invocations. -/

/-- Registry entries: association list mirroring the std::map container of
ThreadSafeMap; contains = count(key) != 0, at = at(key). -/
abbrev RegEntries := List (String × Nat)

def regLookup : RegEntries → String → Option Nat
  | [], _ => none
  | (k', v') :: rest, k => if k' = k then some v' else regLookup rest k

/-- Embeds ThreadSafeMap::contains: whether the key is present. -/
def regContains (es : RegEntries) (k : String) : Bool :=
  (regLookup es k).isSome

/-- Embeds ThreadSafeMap::insert via std::map::insert: inserts only when
the key is not already present (std::map::insert never overwrites). -/
def regInsert (es : RegEntries) (k : String) (v : Nat) : RegEntries :=
  if regContains es k then es else (k, v) :: es

/-- Global registry state: the map contents, the next fresh handle id the
factory would produce, and how many times the factory has run. -/
structure RegState where
  entries : RegEntries
  nextId : Nat
  factoryCalls : Nat
deriving Repr, DecidableEq

/-- Embeds the registry skeleton of Environment::instance (lines 294-364):
if the path is not in the map, run the factory (the private constructor and
engine-open sequence; its failure paths throw before any insert and are not
modelled here) and insert the resulting handle; then return at(path). The
identical skeleton is Environment::database (lines 188-207) with the
name-keyed map. -/
def instanceLookup (r : RegState) (path : String) : RegState × Option Nat :=
  let r' :=
    if !regContains r.entries path then
      { entries := regInsert r.entries path r.nextId,
        nextId := r.nextId + 1,
        factoryCalls := r.factoryCalls + 1 }
    else r
  (r', regLookup r'.entries path)

/-- Embeds the registry skeleton of Environment::database (lines 188-207):
get-or-create on the databases map, keyed by keyspace name — textually the
same check-then-insert protocol as Environment::instance. -/
def databaseLookup (r : RegState) (name : String) : RegState × Option Nat :=
  let r' :=
    if !regContains r.entries name then
      { entries := regInsert r.entries name r.nextId,
        nextId := r.nextId + 1,
        factoryCalls := r.factoryCalls + 1 }
    else r
  (r', regLookup r'.entries name)

/-- Per-thread progress through Environment::instance under concurrency.
ThreadSafeMap::contains takes a shared lock and ThreadSafeMap::insert takes
an exclusive lock, but no lock spans the gap between them, so the check,
the factory-plus-insert, and the final at(path) are three separate atomic
steps. -/
structure ThreadState where
  pc : Nat
  absent_seen : Bool
  ret : Option Nat
deriving Repr, DecidableEq

/-- One atomic step of a thread running Environment::instance(path):
pc 0 performs the contains check, pc 1 runs the factory and insert when the
check saw the key absent, pc 2 reads the result with at(path). -/
def threadStep (reg : RegState) (t : ThreadState) (path : String) :
    RegState × ThreadState :=
  match t.pc with
  | 0 => (reg, { t with pc := 1, absent_seen := !regContains reg.entries path })
  | 1 =>
      if t.absent_seen then
        ({ entries := regInsert reg.entries path reg.nextId,
           nextId := reg.nextId + 1,
           factoryCalls := reg.factoryCalls + 1 },
         { t with pc := 2 })
      else (reg, { t with pc := 2 })
  | 2 => (reg, { t with pc := 3, ret := regLookup reg.entries path })
  | _ => (reg, t)

/-- Two threads concurrently running Environment::instance on the same
path. -/
structure ConcState where
  reg : RegState
  a : ThreadState
  b : ThreadState
deriving Repr, DecidableEq

def initThread : ThreadState := { pc := 0, absent_seen := false, ret := none }

def initConc : ConcState :=
  { reg := { entries := [], nextId := 0, factoryCalls := 0 },
    a := initThread, b := initThread }

/-- Runs a schedule: true steps thread a, false steps thread b. -/
def schedRun (path : String) : ConcState → List Bool → ConcState
  | s, [] => s
  | s, true :: rest =>
      let (reg', a') := threadStep s.reg s.a path
      schedRun path { s with reg := reg', a := a' } rest
  | s, false :: rest =>
      let (reg', b') := threadStep s.reg s.b path
      schedRun path { s with reg := reg', b := b' } rest

/- Cursor (class Cursor, lines 904-1066) and the Database traversals built
on it. -/

/-- Embeds Cursor::get(op) (lines 953-976): an explicit "Cursor does not
exist" LMDB_ERROR when the cursor handle is null; otherwise the engine
repositions the cursor and, on MDB_SUCCESS (result and the position's raw
key/value bytes ek/ev are engine oracles), both the key and the value are
passed through load_result before being returned. -/
def Cursor.cget (cursorLive : Bool) (result : Int) (ek ev : Bytes) :
    Int × Bytes × Bytes :=
  if !cursorLive then (LMDB_ERROR, [], [])
  else if result = SUCCESS then (result, load_result ek, load_result ev)
  else (result, [], [])

/-- Embeds the traversal loop of Database::list_keys (lines 631-667) over
the engine's entries in cursor order: each successful cursor->get position
yields load_result of the stored key; when ignore_duplicates is set a key
equal to the previously collected (already load_result-processed) key is
skipped; last_key starts as the empty buffer. -/
def list_keys_loop (ig : Bool) : List (Bytes × Bytes) → Bytes → List Bytes
  | [], _ => []
  | (k, _) :: rest, last =>
      let key := load_result k
      if ig && key = last then list_keys_loop ig rest last
      else key :: list_keys_loop ig rest key

/-- Embeds Database::list_keys (lines 631-667): walks MDB_FIRST then
MDB_NEXT until the first non-success, collecting keys. -/
def Database.list_keys (entries : List (Bytes × Bytes)) (ig : Bool) :
    List Bytes :=
  list_keys_loop ig entries []

/-- Embeds Database::count (lines 503-524): walks MDB_FIRST then MDB_NEXT
until the first non-success, counting successful positions. -/
def Database.count : List (Bytes × Bytes) → Nat
  | [] => 0
  | _ :: rest => 1 + Database.count rest

/- System trace model for the open-transaction counter invariant: the
reachable states are those produced by any sequence of transaction
constructions, commits, aborts and destructions, each embedded by the
corresponding wrapper function above. -/

/-- An event against one Environment: constructing a transaction (with the
engine oracle results for txn_setup), or committing / aborting / destroying
the i-th constructed transaction (with the engine oracle result for
mdb_txn_commit). -/
inductive Event where
  | create (ro : Bool) (r0 r1 r2 d0 d1 : Int)
  | commit (i : Nat) (engineResult : Int)
  | abort (i : Nat)
  | destroy (i : Nat)

/-- Whole-system state: the Environment, every Transaction object
constructed so far (a destroyed transaction stays in the list with its
handle cleared by the destructor's abort), and the committed store. -/
structure SysState where
  env : EnvState
  txns : List TxnState
  store : Store

def SysState.init : SysState :=
  { env := { open_txns := 0, mapsize := 0, psize := 4096, growth_factor := 8 },
    txns := [], store := [] }

/-- One system step: create appends the new transaction on construction
success and leaves the state unchanged when construction throws; commit,
abort and destroy apply the corresponding Transaction member function to
the i-th transaction. -/
def SysState.step (s : SysState) : Event → SysState
  | .create ro r0 r1 r2 d0 d1 =>
      match Transaction.construct s.env ro r0 r1 r2 d0 d1 with
      | .ret (env', t) => { s with env := env', txns := s.txns ++ [t] }
      | _ => s
  | .commit i er =>
      match s.txns[i]? with
      | some t =>
          let (env', t', store', _) := Transaction.commit s.env t s.store er
          { env := env', txns := s.txns.set i t', store := store' }
      | none => s
  | .abort i =>
      match s.txns[i]? with
      | some t =>
          let (env', t') := Transaction.abort s.env t
          { s with env := env', txns := s.txns.set i t' }
      | none => s
  | .destroy i =>
      match s.txns[i]? with
      | some t =>
          let (env', t') := Transaction.destruct s.env t
          { s with env := env', txns := s.txns.set i t' }
      | none => s

def SysState.run (events : List Event) : SysState :=
  events.foldl SysState.step SysState.init

/-- Contribution of one transaction object to the open read/write
transaction count: 1 when it is live and read-write, 0 otherwise. -/
def txnContrib (t : TxnState) : Nat :=
  if t.txn_live && !t.m_readonly then 1 else 0

/-- The number of read-write transactions that are live (successfully
constructed and not yet committed, aborted or destroyed). -/
def countLiveRW : List TxnState → Nat
  | [] => 0
  | t :: rest => txnContrib t + countLiveRW rest

/-- The counter invariant: the Environment's open-transaction counter
equals the number of live read-write transaction objects. -/
def counterInv (s : SysState) : Prop :=
  s.env.open_txns = countLiveRW s.txns

/- Concrete states used to exercise the model on explicit inputs. -/

/-- A quiescent environment: no open transactions, 4K pages, 8 MB growth
factor. -/
def env0 : EnvState := ⟨0, 0, 4096, 8⟩

/-- An environment with one open read-write transaction. -/
def env1 : EnvState := ⟨1, 0, 4096, 8⟩

/-- A quiescent environment whose map is 100 bytes. -/
def env100 : EnvState := ⟨0, 100, 4096, 8⟩

/-- An environment with one open transaction and a 100-byte map. -/
def env100busy : EnvState := ⟨1, 100, 4096, 8⟩

/-- A read-write transaction whose handle is gone. -/
def deadRW : TxnState := ⟨false, false, []⟩

/-- A live read-only transaction. -/
def liveRO : TxnState := ⟨true, true, []⟩

/-- A live read-write transaction with no pending writes. -/
def liveRW : TxnState := ⟨true, false, []⟩

/-- A system state holding exactly one live read-only transaction. -/
def sysRO : SysState := ⟨env0, [liveRO], []⟩

/- Helper lemmas shared by the claim theorems. -/

/-- A put stores its value at its key. -/
theorem storeGet_storePut_self (s : Store) (k v : Bytes) :
    storeGet (storePut s k v) k = some v := by
  induction s with
  | nil => simp [storePut, storeGet]
  | cons hd tl ih =>
      obtain ⟨k', v'⟩ := hd
      by_cases h : k' = k
      · subst h
        simp [storePut, storeGet]
      · simp [storePut, storeGet, h, ih]

/-- Decompression succeeds exactly on outputs of the compressor, and
recovers its payload. -/
theorem snappyUncompress_eq_some {b w : Bytes} :
    snappyUncompress b = some w → b = 255 :: w := by
  unfold snappyUncompress
  split
  · rename_i rest h
    intro hw
    cases hw
    exact congrArg (255 :: ·) rfl ▸ rfl
  · intro hw
    cases hw

/-- Round trip of the modelled codec. -/
theorem load_result_snappyCompress (v : Bytes) :
    load_result (snappyCompress v) = v := by
  simp [load_result, snappyCompress, snappyUncompress]

/-- load_result leaves bytes unchanged when decompression fails. -/
theorem load_result_of_uncompress_none {v : Bytes}
    (h : snappyUncompress v = none) : load_result v = v := by
  simp [load_result, h]

/-- Appending one transaction adds its contribution to the live read-write
count. -/
theorem countLiveRW_append (l : List TxnState) (t : TxnState) :
    countLiveRW (l ++ [t]) = countLiveRW l + txnContrib t := by
  induction l with
  | nil => simp [countLiveRW]
  | cons hd tl ih => simp [countLiveRW, ih]; omega

/-- Replacing the i-th transaction exchanges its contribution in the live
read-write count. -/
theorem countLiveRW_set :
    ∀ (l : List TxnState) (i : Nat) (t t' : TxnState),
      l[i]? = some t →
      countLiveRW (l.set i t') + txnContrib t = countLiveRW l + txnContrib t'
  | [], i, t, t', h => by simp at h
  | hd :: tl, 0, t, t', h => by
      simp at h
      subst h
      simp [countLiveRW]
      omega
  | hd :: tl, i + 1, t, t', h => by
      simp at h
      have := countLiveRW_set tl i t t' h
      simp [countLiveRW, List.set]
      omega

/-- A transaction present in the list contributes at most the total live
read-write count. -/
theorem txnContrib_le :
    ∀ (l : List TxnState) (i : Nat) (t : TxnState),
      l[i]? = some t → txnContrib t ≤ countLiveRW l
  | [], i, t, h => by simp at h
  | hd :: tl, 0, t, h => by
      simp at h
      subst h
      simp [countLiveRW]
  | hd :: tl, i + 1, t, h => by
      simp at h
      have := txnContrib_le tl i t h
      simp [countLiveRW]
      omega

/-- Shape of Transaction.commit on a transaction with no live handle. -/
theorem commit_dead {env : EnvState} {t : TxnState} (s : Store) (er : Int)
    (h : t.txn_live = false) :
    Transaction.commit env t s er = (env, t, s, LMDB_BAD_TXN) := by
  simp [Transaction.commit, h]

/-- Shape of Transaction.commit on a transaction with a live handle. -/
theorem commit_live {env : EnvState} {t : TxnState} (s : Store) (er : Int)
    (h : t.txn_live = true) :
    Transaction.commit env t s er =
      (if !t.m_readonly then transaction_unregister env else env,
       { t with txn_live := false, pending := [] },
       if er = SUCCESS then applyOps s t.pending else s, er) := by
  simp [Transaction.commit, h]

/-- Shape of Transaction.abort on a transaction with no live handle. -/
theorem abort_dead {env : EnvState} {t : TxnState}
    (h : t.txn_live = false) :
    Transaction.abort env t = (env, t) := by
  simp [Transaction.abort, h]

/-- Shape of Transaction.abort on a transaction with a live handle. -/
theorem abort_live {env : EnvState} {t : TxnState}
    (h : t.txn_live = true) :
    Transaction.abort env t =
      (if !t.m_readonly then transaction_unregister env else env,
       { t with txn_live := false, pending := [] }) := by
  simp [Transaction.abort, h]

/-- Successful transaction construction yields a live transaction with the
requested read-only flag and no pending writes, and registers the counter
exactly when the transaction is read-write. -/
theorem construct_ret {env : EnvState} {ro : Bool} {r0 r1 r2 d0 d1 : Int}
    {p : EnvState × TxnState}
    (h : Transaction.construct env ro r0 r1 r2 d0 d1 = .ret p) :
    p = (if !ro then transaction_register env else env,
         { txn_live := true, m_readonly := ro, pending := [] }) := by
  unfold Transaction.construct at h
  cases hb : txn_begin r0 r1 r2 d0 d1 <;> rw [hb] at h <;> cases h <;> rfl

/-- The saturating decrement of transaction_unregister, as a Nat equation. -/
theorem unregister_open (e : EnvState) :
    (transaction_unregister e).open_txns = e.open_txns - 1 := by
  unfold transaction_unregister
  split
  · rfl
  · omega

/-- Killing the i-th live transaction (clearing its handle and
unregistering when read-write) leaves the counter equal to the live
read-write count. -/
theorem counter_kill (s : SysState) (i : Nat) (t : TxnState)
    (hg : s.txns[i]? = some t) (h : counterInv s) (hl : t.txn_live = true) :
    (if !t.m_readonly then transaction_unregister s.env else s.env).open_txns
      = countLiveRW (s.txns.set i { t with txn_live := false, pending := [] }) := by
  have hset := countLiveRW_set s.txns i t
    { t with txn_live := false, pending := [] } hg
  have hle := txnContrib_le s.txns i t hg
  unfold counterInv at h
  by_cases hro : t.m_readonly = true
  · simp [txnContrib, hl, hro] at hset hle ⊢
    omega
  · have hro' : t.m_readonly = false := by
      revert hro
      cases t.m_readonly <;> simp
    simp only [hro', Bool.not_false, if_true, unregister_open]
    simp [txnContrib, hl, hro'] at hset hle
    omega

/-- Rewriting the i-th transaction with itself leaves the count alone. -/
theorem counter_set_self (s : SysState) (i : Nat) (t : TxnState)
    (hg : s.txns[i]? = some t) (h : counterInv s) :
    s.env.open_txns = countLiveRW (s.txns.set i t) := by
  have hset := countLiveRW_set s.txns i t t hg
  unfold counterInv at h
  omega

/-- Every step of the system model preserves the counter invariant. -/
theorem counterInv_step (s : SysState) (e : Event) (h : counterInv s) :
    counterInv (s.step e) := by
  cases e with
  | create ro r0 r1 r2 d0 d1 =>
      unfold counterInv
      simp only [SysState.step]
      cases hc : Transaction.construct s.env ro r0 r1 r2 d0 d1 with
      | ret p =>
          have hp := construct_ret hc
          subst hp
          dsimp only
          rw [countLiveRW_append]
          unfold counterInv at h
          cases ro with
          | true => simpa [txnContrib] using h
          | false => simp [txnContrib, transaction_register, h]
      | thrown m => exact h
      | nullDeref => exact h
  | commit i er =>
      unfold counterInv
      simp only [SysState.step]
      cases hg : s.txns[i]? with
      | none => exact h
      | some t =>
          dsimp only
          by_cases hl : t.txn_live = true
          · rw [commit_live s.store er hl]
            dsimp only
            exact counter_kill s i t hg h hl
          · have hlf : t.txn_live = false := by
              revert hl
              cases t.txn_live <;> simp
            rw [commit_dead s.store er hlf]
            dsimp only
            exact counter_set_self s i t hg h
  | abort i =>
      unfold counterInv
      simp only [SysState.step]
      cases hg : s.txns[i]? with
      | none => exact h
      | some t =>
          dsimp only
          by_cases hl : t.txn_live = true
          · rw [abort_live hl]
            dsimp only
            exact counter_kill s i t hg h hl
          · have hlf : t.txn_live = false := by
              revert hl
              cases t.txn_live <;> simp
            rw [abort_dead hlf]
            dsimp only
            exact counter_set_self s i t hg h
  | destroy i =>
      unfold counterInv
      simp only [SysState.step, Transaction.destruct]
      cases hg : s.txns[i]? with
      | none => exact h
      | some t =>
          dsimp only
          by_cases hl : t.txn_live = true
          · rw [abort_live hl]
            dsimp only
            exact counter_kill s i t hg h hl
          · have hlf : t.txn_live = false := by
              revert hl
              cases t.txn_live <;> simp
            rw [abort_dead hlf]
            dsimp only
            exact counter_set_self s i t hg h

/-- The counter invariant holds along every event sequence. -/
theorem counterInv_foldl :
    ∀ (es : List Event) (s : SysState), counterInv s →
      counterInv (es.foldl SysState.step s)
  | [], s, h => h
  | e :: es, s, h => counterInv_foldl es (s.step e) (counterInv_step s e h)

/-- After instanceLookup, the path is present in the registry. -/
theorem regContains_regInsert_self (es : RegEntries) (k : String) (v : Nat) :
    regContains (regInsert es k v) k = true := by
  unfold regInsert
  by_cases h : regContains es k = true
  · simp [h]
  · unfold regContains at h ⊢
    simp [h, regLookup]

/-- instanceLookup leaves the looked-up path present in the registry. -/
theorem instanceLookup_contains (r : RegState) (p : String) :
    regContains (instanceLookup r p).1.entries p = true := by
  unfold instanceLookup
  by_cases h : regContains r.entries p = true
  · simp [h]
  · simp [h, regContains_regInsert_self]

/-- When the path is already registered, instanceLookup neither changes the
registry nor runs the factory: it returns the existing entry. -/
theorem instanceLookup_of_contains (r : RegState) (p : String)
    (h : regContains r.entries p = true) :
    instanceLookup r p = (r, regLookup r.entries p) := by
  unfold instanceLookup
  simp [h]

/-- databaseLookup leaves the looked-up name present in the registry. -/
theorem databaseLookup_contains (r : RegState) (p : String) :
    regContains (databaseLookup r p).1.entries p = true := by
  unfold databaseLookup
  by_cases h : regContains r.entries p = true
  · simp [h]
  · simp [h, regContains_regInsert_self]

/-- When the name is already registered, databaseLookup neither changes the
registry nor runs the factory. -/
theorem databaseLookup_of_contains (r : RegState) (p : String)
    (h : regContains r.entries p = true) :
    databaseLookup r p = (r, regLookup r.entries p) := by
  unfold databaseLookup
  simp [h]

/-- With ignore_duplicates unset, the list_keys loop collects load_result of
every stored key in traversal order. -/
theorem list_keys_loop_false :
    ∀ (l : List (Bytes × Bytes)) (last : Bytes),
      list_keys_loop false l last = l.map fun e => load_result e.1
  | [], _ => rfl
  | (k, v) :: rest, last => by
      simp [list_keys_loop, list_keys_loop_false rest]

/-- The committed store produced by the success path of Database::put. -/
theorem put_model_store (env : EnvState) (s : Store) (c : Bool)
    (k v : Bytes) :
    (Database.put_model env s c k v).2.1 =
      storePut s (load_value k false) (load_value v c) := by
  unfold Database.put_model Transaction.put Transaction.commit
  simp [applyOps, applyOp]

/-- Database::get on a store containing the looked-up key. -/
theorem get_model_found {s : Store} {k raw : Bytes}
    (h : storeGet s (load_value k false) = some raw) :
    Database.get_model s k = .ret (SUCCESS, load_result raw) := by
  unfold Database.get_model Transaction.get
  simp [applyOps, h]

/- Claim theorems. -/

/-- C1: a read-write Transaction that performs a put of key k and leaves
scope without commit() has its destructor abort the transaction, so k stays
absent from the committed database; explicit abort() is identical to the
destructor; abort() on a transaction whose handle is already gone is a
no-op. (Contrast conjunct: the same flow followed by commit would have made
k present.) -/
theorem claim_C1 (env : EnvState) (store : Store) (k v : Bytes) (c : Bool)
    (hk : storeGet store k = none) :
    Transaction.put { txn_live := true, m_readonly := false, pending := [] }
        c k v =
      .ret ({ txn_live := true, m_readonly := false,
              pending := [TxnOp.put k (load_value v c)] }, SUCCESS) ∧
    (Transaction.destruct env
        { txn_live := true, m_readonly := false,
          pending := [TxnOp.put k (load_value v c)] }).2.txn_live = false ∧
    Database.get_model store k = .ret (LMDB_NOTFOUND, []) ∧
    (∀ (e' : EnvState) (t' : TxnState),
        Transaction.abort e' t' = Transaction.destruct e' t') ∧
    Database.get_model
        (Transaction.commit env
          { txn_live := true, m_readonly := false,
            pending := [TxnOp.put k (load_value v c)] } store SUCCESS).2.2.1
        k = .ret (SUCCESS, load_result (load_value v c)) ∧
    (∀ (e' : EnvState) (t' : TxnState), t'.txn_live = false →
        Transaction.abort e' t' = (e', t')) := by
  refine ⟨?_, ?_, ?_, ?_, ?_, ?_⟩
  · simp [Transaction.put, load_value]
  · simp [Transaction.destruct, Transaction.abort]
  · unfold Database.get_model Transaction.get
    simp [applyOps, load_value, hk]
  · intro e' t'
    rfl
  · rw [commit_live store SUCCESS rfl]
    exact get_model_found (by simp [applyOps, applyOp, load_value,
      storeGet_storePut_self])
  · intro e' t' h
    exact abort_dead h

/-- Witness for C1 at a concrete input. -/
theorem claim_C1_witness :
    storeGet ([] : Store) [1] = none ∧
    Database.get_model ([] : Store) [1] = .ret (LMDB_NOTFOUND, []) :=
  ⟨rfl, (claim_C1 env0 [] [1] [2] false rfl).2.2.1⟩

/-- C2: on a transaction whose engine handle is gone, commit, id and renew
do fail explicitly with an error value, but get, put, del and exists
perform no liveness check at all — the source dereferences the null handle
(*txn), which is undefined behavior, not an explicit failure. This theorem
evaluates the embedded code on dead-handle transactions: the unguarded four
end in nullDeref rather than an error return. -/
theorem claim_C2 (env : EnvState) (store : Store) (t : TxnState)
    (k v : Bytes) (c : Bool) (engineId : Nat) (er : Int)
    (hdead : t.txn_live = false) :
    Transaction.get store t k = .nullDeref ∧
    Transaction.put t c k v = .nullDeref ∧
    Transaction.del t k = .nullDeref ∧
    Transaction.exists_ store t k = .nullDeref ∧
    Transaction.commit env t store er = (env, t, store, LMDB_BAD_TXN) ∧
    Transaction.id t engineId = (LMDB_BAD_TXN, 0) ∧
    Transaction.renew t er = LMDB_BAD_TXN := by
  refine ⟨?_, ?_, ?_, ?_, ?_, ?_, ?_⟩ <;>
    simp [Transaction.get, Transaction.put, Transaction.del,
      Transaction.exists_, Transaction.commit, Transaction.id,
      Transaction.renew, hdead]

/-- Witness for C2 at a concrete input: a freshly committed (hence
handle-less) transaction. -/
theorem claim_C2_witness :
    Transaction.get ([] : Store) deadRW [1] = .nullDeref ∧
    Transaction.renew deadRW SUCCESS = LMDB_BAD_TXN :=
  ⟨(claim_C2 env0 [] deadRW [1] [2] false 0 SUCCESS rfl).1,
   (claim_C2 env0 [] deadRW [1] [2] false 0 SUCCESS rfl).2.2.2.2.2.2⟩

/-- C3 counterexample: one put iteration hits MDB_MAP_FULL and the
subsequent expand fails with LMDB_ERROR; the loop terminates but the error
surfaced to the caller is the original map-full condition, not the expand
error — refuting the claim that the expand error is surfaced. -/
theorem claim_C3_counterexample :
    dbWriteLoop [⟨LMDB_MAP_FULL, SUCCESS, LMDB_ERROR⟩] =
      some LMDB_MAP_FULL ∧
    LMDB_MAP_FULL ≠ LMDB_ERROR := by
  constructor
  · rfl
  · decide

/-- C3 amended: for Database::put and Database::del the retry loop does
terminate whenever expand() fails, but it surfaces the original
map-full/txn-full condition (from the operation or from the commit), not
the expand error; Database::drop ignores the expand result entirely and
keeps retrying while the engine reports map-full, never returning on
persistent expand failure. -/
theorem claim_C3_amended :
    (∀ (it : WriteIter) (rest : List WriteIter),
        retryable it.op_result = true → it.expand_result ≠ SUCCESS →
        dbWriteLoop (it :: rest) = some it.op_result) ∧
    (∀ (it : WriteIter) (rest : List WriteIter),
        it.op_result = SUCCESS → retryable it.commit_result = true →
        it.expand_result ≠ SUCCESS →
        dbWriteLoop (it :: rest) = some it.commit_result) ∧
    (∀ script : List DropIter,
        (∀ it ∈ script, it.drop_result = LMDB_MAP_FULL) →
        dbDropLoop script = none) := by
  refine ⟨?_, ?_, ?_⟩
  · intro it rest h1 h2
    simp [dbWriteLoop, h1, h2]
  · intro it rest h1 h2 h3
    have hr : retryable SUCCESS = false := by decide
    simp [dbWriteLoop, h1, hr, h2, h3]
  · intro script
    induction script with
    | nil => intro _; rfl
    | cons it rest ih =>
        intro h
        have hh := h it (by simp)
        simp [dbDropLoop, hh]
        exact ih fun x hx => h x (by simp [hx])

/-- Witness for C3 amended at concrete inputs. -/
theorem claim_C3_witness :
    dbWriteLoop [⟨LMDB_TXN_FULL, SUCCESS, LMDB_MAP_FULL⟩] =
      some LMDB_TXN_FULL ∧
    dbDropLoop [⟨LMDB_MAP_FULL, LMDB_ERROR, SUCCESS⟩] = none :=
  ⟨claim_C3_amended.1 _ [] (by decide) (by decide),
   claim_C3_amended.2.2 _ (by decide)⟩

/-- C4 counterexample: two threads run Environment::instance("p")
concurrently; because the contains check (shared lock) and the insert
(exclusive lock) are separate critical sections, the interleaving
check-check-create-create runs the factory twice — refuting the claim that
the check-and-insert is a single atomic critical section in which the
factory runs exactly once per key even under concurrent calls. (Both calls
still return the same handle, since the map insert never overwrites.) -/
theorem claim_C4_counterexample :
    (schedRun "p" initConc [true, false, true, false, true, false]).reg.factoryCalls
      = 2 ∧
    (schedRun "p" initConc [true, false, true, false, true, false]).a.ret =
      (schedRun "p" initConc [true, false, true, false, true, false]).b.ret := by
  constructor
  · rfl
  · rfl

/-- C4 amended: a second, sequential call to Environment::instance(path)
(and likewise Environment::database(name)) returns the handle created by
the first call without invoking the factory again and without changing the
registry; the map insert never overwrites an existing key, so even racing
calls return the first-inserted handle — but the check-and-insert is not
one atomic critical section, and under concurrent calls the factory can
run more than once (see the counterexample). -/
theorem claim_C4_amended :
    (∀ (r : RegState) (path : String),
        (instanceLookup (instanceLookup r path).1 path).1 =
          (instanceLookup r path).1 ∧
        (instanceLookup (instanceLookup r path).1 path).2 =
          (instanceLookup r path).2) ∧
    (∀ (r : RegState) (name : String),
        (databaseLookup (databaseLookup r name).1 name).1 =
          (databaseLookup r name).1 ∧
        (databaseLookup (databaseLookup r name).1 name).2 =
          (databaseLookup r name).2) ∧
    (∀ (es : RegEntries) (k : String) (v : Nat),
        regContains es k = true → regInsert es k v = es) := by
  refine ⟨?_, ?_, ?_⟩
  · intro r path
    rw [instanceLookup_of_contains _ _ (instanceLookup_contains r path)]
    exact ⟨rfl, rfl⟩
  · intro r name
    rw [databaseLookup_of_contains _ _ (databaseLookup_contains r name)]
    exact ⟨rfl, rfl⟩
  · intro es k v h
    simp [regInsert, h]

/-- Witness for C4 amended at a concrete input. -/
theorem claim_C4_witness :
    regInsert [("p", 0)] "p" 5 = [("p", 0)] :=
  claim_C4_amended.2.2 [("p", 0)] "p" 5 (by decide)

/-- C5: commit() on a transaction with no live handle returns LMDB_BAD_TXN
immediately, touching nothing; on a live handle it decrements the
open-transaction counter exactly when the transaction is read-write,
clears the handle regardless of the engine commit outcome, and returns the
engine result — a failed commit still consumes the transaction and leaves
the committed store unchanged. -/
theorem claim_C5 (env : EnvState) (t : TxnState) (s : Store) (er : Int) :
    (t.txn_live = false →
        Transaction.commit env t s er = (env, t, s, LMDB_BAD_TXN)) ∧
    (t.txn_live = true → t.m_readonly = false →
        (Transaction.commit env t s er).1 = transaction_unregister env ∧
        (Transaction.commit env t s er).2.1.txn_live = false ∧
        (Transaction.commit env t s er).2.2.2 = er) ∧
    (t.txn_live = true → t.m_readonly = true →
        (Transaction.commit env t s er).1 = env ∧
        (Transaction.commit env t s er).2.1.txn_live = false) ∧
    (t.txn_live = true → er ≠ SUCCESS →
        (Transaction.commit env t s er).2.1.txn_live = false ∧
        (Transaction.commit env t s er).2.2.1 = s ∧
        (Transaction.commit env t s er).2.2.2 = er) := by
  refine ⟨?_, ?_, ?_, ?_⟩
  · intro h
    exact commit_dead s er h
  · intro hl hro
    rw [commit_live s er hl]
    simp [hro]
  · intro hl hro
    rw [commit_live s er hl]
    simp [hro]
  · intro hl her
    rw [commit_live s er hl]
    simp [her]

/-- Witness for C5 at a concrete input: a live read-write transaction whose
engine commit fails with MDB_MAP_FULL. -/
theorem claim_C5_witness :
    (Transaction.commit env1 liveRW [] LMDB_MAP_FULL).2.1.txn_live = false ∧
    (Transaction.commit env1 liveRW [] LMDB_MAP_FULL).2.2.2 =
      LMDB_MAP_FULL :=
  ⟨((claim_C5 env1 liveRW [] LMDB_MAP_FULL).2.2.2 rfl (by decide)).1,
   ((claim_C5 env1 liveRW [] LMDB_MAP_FULL).2.1 rfl rfl).2.2⟩

/-- C6 counterexample: the value snappyCompress [7] written with
compression disabled reads back as [7], not as itself — the read side's
opportunistic decompression misinterprets a raw value that parses as valid
compressed data, refuting the claim for every byte sequence V. -/
theorem claim_C6_counterexample :
    Database.get_model
        (Database.put_model env0 [] false [1] (snappyCompress [7])).2.1 [1] =
      .ret (SUCCESS, [7]) ∧
    snappyCompress [7] ≠ [7] := by
  constructor
  · rfl
  · decide

/-- C6 amended: a value written with compression enabled always reads back
exactly; a value written without compression reads back exactly whenever it
does not itself parse as valid compressed data — when it does, the
decompressed bytes are returned instead (see the counterexample). -/
theorem claim_C6_amended (env : EnvState) (s : Store) (k v : Bytes) :
    Database.get_model (Database.put_model env s true k v).2.1 k =
      .ret (SUCCESS, v) ∧
    (snappyUncompress v = none →
      Database.get_model (Database.put_model env s false k v).2.1 k =
        .ret (SUCCESS, v)) := by
  constructor
  · rw [put_model_store]
    have := get_model_found (s := storePut s (load_value k false)
      (load_value v true)) (k := k) (storeGet_storePut_self _ _ _)
    rw [this]
    simp [load_value, load_result_snappyCompress]
  · intro hv
    rw [put_model_store]
    have := get_model_found (s := storePut s (load_value k false)
      (load_value v false)) (k := k) (storeGet_storePut_self _ _ _)
    rw [this]
    simp [load_value, load_result_of_uncompress_none hv]

/-- Witness for C6 amended at a concrete input. -/
theorem claim_C6_witness :
    Database.get_model (Database.put_model env0 [] true [1] [9]).2.1 [1] =
      .ret (SUCCESS, [9]) ∧
    Database.get_model (Database.put_model env0 [] false [1] [9]).2.1 [1] =
      .ret (SUCCESS, [9]) :=
  ⟨(claim_C6_amended env0 [] [1] [9]).1,
   (claim_C6_amended env0 [] [1] [9]).2 (by decide)⟩

/-- C7: expand(pages) fails with the "transactions open" condition and
leaves the map size unchanged when the open read/write transaction count is
non-zero; when the count is zero it sets the map size to the current map
size plus pages times the engine page size and succeeds. -/
theorem claim_C7 (e : EnvState) (pages : Nat) :
    (e.open_txns ≠ 0 → Environment.expandPages e pages = (e, LMDB_ERROR)) ∧
    (e.open_txns = 0 →
        (Environment.expandPages e pages).1.mapsize =
          e.mapsize + pages * e.psize ∧
        (Environment.expandPages e pages).2 = SUCCESS ∧
        (Environment.expandPages e pages).1.open_txns = e.open_txns) := by
  constructor
  · intro h
    simp [Environment.expandPages, h]
  · intro h
    refine ⟨?_, ?_, ?_⟩ <;> simp [Environment.expandPages, h] <;> ring

/-- Witness for C7 at concrete inputs: one environment with an open
transaction, one without. -/
theorem claim_C7_witness :
    Environment.expandPages env100busy 3 = (env100busy, LMDB_ERROR) ∧
    (Environment.expandPages env100 3).1.mapsize = 100 + 3 * 4096 :=
  ⟨(claim_C7 env100busy 3).1 (by decide),
   ((claim_C7 env100 3).2 rfl).1⟩

/-- C8: at every reachable state of the system model, the Environment's
open-transaction counter equals the number of read-write transactions
successfully constructed and not yet committed, aborted or destroyed (a
destroyed transaction's destructor aborts it, so live read-write objects
count null); and read-only transactions never change the counter — neither
their construction nor their commit, abort or destruction. -/
theorem claim_C8 :
    (∀ events : List Event,
        (SysState.run events).env.open_txns =
          countLiveRW (SysState.run events).txns) ∧
    (∀ (s : SysState) (i : Nat) (t : TxnState) (er : Int),
        s.txns[i]? = some t → t.m_readonly = true →
        (s.step (.commit i er)).env.open_txns = s.env.open_txns ∧
        (s.step (.abort i)).env.open_txns = s.env.open_txns ∧
        (s.step (.destroy i)).env.open_txns = s.env.open_txns) ∧
    (∀ (s : SysState) (r0 r1 r2 d0 d1 : Int),
        (s.step (.create true r0 r1 r2 d0 d1)).env.open_txns =
          s.env.open_txns) := by
  refine ⟨?_, ?_, ?_⟩
  · intro events
    exact counterInv_foldl events SysState.init rfl
  · intro s i t er hg hro
    refine ⟨?_, ?_, ?_⟩ <;>
      simp only [SysState.step, Transaction.destruct] <;>
      rw [hg] <;> dsimp only <;>
      by_cases hl : t.txn_live = true
    · rw [commit_live s.store er hl]
      simp [hro]
    · rw [commit_dead s.store er (by revert hl; cases t.txn_live <;> simp)]
    · rw [abort_live hl]
      simp [hro]
    · rw [abort_dead (by revert hl; cases t.txn_live <;> simp)]
    · rw [abort_live hl]
      simp [hro]
    · rw [abort_dead (by revert hl; cases t.txn_live <;> simp)]
  · intro s r0 r1 r2 d0 d1
    simp only [SysState.step]
    cases hc : Transaction.construct s.env true r0 r1 r2 d0 d1 with
    | ret p =>
        have hp := construct_ret hc
        subst hp
        simp
    | thrown m => rfl
    | nullDeref => rfl

/-- Witness for C8 at a concrete input: a state holding one live read-only
transaction, whose commit leaves the counter unchanged. -/
theorem claim_C8_witness :
    (SysState.step sysRO (.commit 0 SUCCESS)).env.open_txns =
      sysRO.env.open_txns :=
  (claim_C8.2.1 sysRO 0 liveRO SUCCESS rfl rfl).1

/-- C9 counterexample: reset() on a live read-write transaction throws a
runtime error — terminating the calling context abnormally instead of
returning through the error channel — and renew() on a dead transaction
returns LMDB_BAD_TXN, a code in the engine's preserved code block rather
than a layer-specific one; both refute the claim as stated. -/
theorem claim_C9_counterexample :
    Transaction.reset { txn_live := true, m_readonly := false, pending := [] }
      = .thrown "Transaction does not exist or is not readonly" ∧
    Transaction.renew { txn_live := false, m_readonly := true, pending := [] }
      SUCCESS = LMDB_BAD_TXN ∧
    LMDB_BAD_TXN ∈ engineCodes := by
  refine ⟨rfl, rfl, ?_⟩
  decide

/-- C9 amended: renew() on a non-read-only or non-live transaction is
reported through the error-return channel, but with LMDB_BAD_TXN — the
engine's own bad-transaction code, not a layer-specific one; reset() on
such a transaction instead throws a runtime error, terminating the calling
context abnormally. -/
theorem claim_C9_amended (t : TxnState) (er : Int)
    (h : t.txn_live = false ∨ t.m_readonly = false) :
    Transaction.renew t er = LMDB_BAD_TXN ∧
    Transaction.reset t =
      .thrown "Transaction does not exist or is not readonly" ∧
    LMDB_BAD_TXN ∈ engineCodes := by
  refine ⟨?_, ?_, by decide⟩ <;>
    rcases h with h | h <;>
    simp [Transaction.renew, Transaction.reset, h]

/-- Witness for C9 amended at a concrete input. -/
theorem claim_C9_witness :
    Transaction.renew deadRW SUCCESS = LMDB_BAD_TXN :=
  (claim_C9_amended deadRW SUCCESS (Or.inl rfl)).1

/-- C10: Transaction::put stores the key bytes raw (only the value passes
through the compression flag), yet Cursor::get passes the stored key
through the same opportunistic decompression as values: a stored key that
parses as valid compressed data is returned decompressed — different bytes
from those stored — and the list_keys traversal built on the cursor
collects exactly load_result of every stored key. -/
theorem claim_C10 :
    (∀ (t : TxnState) (c : Bool) (k v : Bytes), t.txn_live = true →
        Transaction.put t c k v =
          .ret ({ t with pending :=
            t.pending ++ [TxnOp.put k (load_value v c)] }, SUCCESS)) ∧
    (∀ ek ev w : Bytes, snappyUncompress ek = some w →
        Cursor.cget true SUCCESS ek ev = (SUCCESS, w, load_result ev) ∧
        w ≠ ek) ∧
    (∀ entries : List (Bytes × Bytes),
        Database.list_keys entries false =
          entries.map fun e => load_result e.1) := by
  refine ⟨?_, ?_, ?_⟩
  · intro t c k v hl
    simp [Transaction.put, hl, load_value]
  · intro ek ev w h
    have hek : ek = 255 :: w := snappyUncompress_eq_some h
    constructor
    · simp [Cursor.cget, load_result, h]
    · intro hw
      rw [hek] at hw
      exact List.cons_ne_self 255 w hw.symm
  · intro entries
    exact list_keys_loop_false entries []

/-- Witness for C10 at a concrete input: the stored key [255, 3] parses as
compressed data and is returned as [3]. -/
theorem claim_C10_witness :
    Cursor.cget true SUCCESS [255, 3] [0] = (SUCCESS, [3], [0]) ∧
    ([3] : Bytes) ≠ [255, 3] :=
  (claim_C10.2.1 [255, 3] [0] [3] rfl)

end LMDBCpp
